import Mathlib

/-
Verification of the resume-tailoring step
(src/graphs/resume_rewrite/nodes/resume_tailorer.py).

The step is embedded shallowly: Python strings become `List Char`, the
external generation service, the JSON decoder and the persistence sink
become explicit parameters, and the langgraph suspension mechanism
(`interrupt` / `GraphInterrupt`) is modelled, following the interface contract of the spec, as either raising a suspension signal (first run)
or returning the externally supplied resumption value (resumed run).
Every execution also produces a trace recording the generation calls
(their prompts), the suspension requests, and the persistence calls.
-/

set_option maxRecDepth 100000

/-- Python strings are modelled as lists of characters. -/
abbrev Str := List Char

/-! ## Python `str.replace`

`replaceAll s pat rep` mirrors Python `s.replace(pat, rep)` for a
non-empty pattern: scan left to right, replace each non-overlapping
occurrence, and continue scanning after the replacement text. -/

/-- Fuel-indexed scanner behind `replaceAll`.  Structural recursion in
the fuel keeps it kernel-reducible; each scanning step consumes one
fuel and at least one character (the pattern being non-empty), so the
string length is always enough fuel. -/
def replaceAllF (pat rep : Str) : Nat → Str → Str
  | _, [] => []
  | 0, s => s
  | fuel + 1, c :: t =>
    if pat <+: (c :: t) then
      rep ++ replaceAllF pat rep fuel ((c :: t).drop pat.length)
    else
      c :: replaceAllF pat rep fuel t

/-- Model of Python `s.replace(pat, rep)` (for non-empty `pat`): scan
left to right, replacing each non-overlapping occurrence and resuming
after the replacement text. -/
def replaceAll (s pat rep : Str) : Str := replaceAllF pat rep s.length s

/-- `cleanBefore pat a s = true` states that no occurrence of `pat` in
`a ++ s` begins inside `a` (i.e. strictly before position `a.length`). -/
def cleanBefore (pat a s : Str) : Bool :=
  match a with
  | [] => true
  | c :: a2 => (!(decide (pat <+: (c :: (a2 ++ s))))) && cleanBefore pat a2 s

/-! ## Data model (from `resume_tailorer.py`) -/

/-- Structured output of one generation call
(source class `ResumeAnalysisAndGeneration`). -/
structure ResumeAnalysisAndGeneration where
  missing_info : List Str
  tailored_resume : Str
deriving DecidableEq

/-- Typed data handed to the suspension mechanism when missing info is
detected (source class `InterruptData`). -/
structure InterruptData where
  missing_info : List Str
  tailored_resume : Str
  user_id : Str
  job_id : Str
  full_resume : Str
deriving DecidableEq

/-- Expected resumption payload (source class `InfoCollectionResult`):
`final_collected_info` defaults to the empty string,
`updated_full_resume` is required. -/
structure InfoCollectionResult where
  final_collected_info : Str
  updated_full_resume : Str
deriving DecidableEq

/-- The graph state fields read by the step.  `user_id` and `job_id` are
always present; the five content fields are optional and are checked by
the validation collaborator before any generation call. -/
structure GraphState where
  user_id : Str
  job_id : Str
  original_resume : Option Str
  full_resume : Option Str
  job_description : Option Str
  company_strategy : Option Str
  recruiter_feedback : Option Str
deriving DecidableEq

/-- A Python value, as delivered by the external actor on resumption and
as produced by the JSON decoder. -/
inductive PyValue where
  | none : PyValue
  | str (s : Str) : PyValue
  | int (n : Int) : PyValue
  | bool (b : Bool) : PyValue
  | list (xs : List PyValue) : PyValue
  | dict (fields : List (Str × PyValue)) : PyValue

/-- Python truthiness (`if collection_result:`). -/
def pyTruthy : PyValue → Bool
  | PyValue.none => false
  | PyValue.str s => !s.isEmpty
  | PyValue.int n => n != 0
  | PyValue.bool b => b
  | PyValue.list xs => !xs.isEmpty
  | PyValue.dict fs => !fs.isEmpty

/-- Behaviour of the suspension mechanism for this invocation: either the
step has not been resumed (the suspension signal propagates), or
`interrupt` returns the externally supplied value. -/
inductive ResumeBehavior where
  | noResume : ResumeBehavior
  | resume (v : PyValue) : ResumeBehavior

/-- Exceptions crossing the step body: the suspension signal
(`GraphInterrupt`, carrying the interrupt payload) or any other
exception, carried as its message. -/
inductive PyExc where
  | graphInterrupt (d : InterruptData) : PyExc
  | other (msg : Str) : PyExc
deriving DecidableEq

/-- The dictionary the step returns to the caller: either
`{tailored_resume, missing_info}` or `{error}`. -/
inductive StepReturn where
  | ok (tailored_resume : Str) (missing_info : List Str) : StepReturn
  | err (msg : Str) : StepReturn
deriving DecidableEq

/-- Observable outcome at the step boundary: a returned dictionary, or a
propagated exception. -/
inductive StepOutcome where
  | ret (r : StepReturn) : StepOutcome
  | raised (e : PyExc) : StepOutcome
deriving DecidableEq

/-- Trace of the interactions of the step with its collaborators: prompts of
the generation calls in order, suspension requests, and persistence
calls `(user_id, job_id, kind, text)`. -/
structure Trace where
  prompts : List Str
  interrupts : List InterruptData
  saves : List (Str × Str × Str × Str)
deriving DecidableEq

/-! ## The prompt (source lines 104-167)

The prompt is the f-string built by `resume_tailorer`, split at the six
interpolated context fields.  `mkPrompt` concatenates the literal parts
with the field values exactly as the f-string does. -/

/-- Literal prompt text up to and including the `RECRUITER_FEEDBACK:`
header line. -/
def promptIntro : Str :=
  ("\nYou are a professional resume expert. Your task is to:\n1. Identify what critical information is missing for optimal job tailoring\n2. Generate the best possible tailored resume using available information\n\nCRITICAL INSTRUCTIONS:\n- You MUST provide missing_info (even if empty)\n- You MUST provide tailored_resume (complete resume)\n- NEVER return only one field - always return both\n\nMISSING INFO ANALYSIS:\nConsider what\x27s missing for optimal job matching:\n- Missing relevant skills/technologies mentioned in job\n- Lack of quantifiable achievements matching requirements\n- Missing industry experience or certifications\n- Absence of required leadership/project examples\n\nBe conservative with missing info - only flag things that would significantly impact application success.\n\nRESUME GENERATION:\nCreate a complete tailored resume:\n- SHOW DON\x27T TELL: Write about experiences matching job requirements\n- Use quantifiable achievements and evidence-backed claims\n- Include job description keywords for ATS optimization\n- Never fabricate experiences or mischaracterize background\n- DO NOT invent information to fill gaps - work with what you have\n- Focus on strongest available experiences if missing critical info\n\nRECRUITER_FEEDBACK:\n").toList

/-- Literal prompt text after the company-strategy field, through the end
of the prompt. -/
def promptOutro : Str :=
  ("\n\nREQUIRED OUTPUT FORMAT:\nYou MUST return a valid JSON object with exactly this structure:\n\n\x7b\n  \"missing_info\": [\"item 1\", \"item 2\", \"item 3\"],\n  \"tailored_resume\": \"# Resume content here...\"\n\x7d\n\nCRITICAL JSON REQUIREMENTS:\n- Use curly braces \x7b \x7d for the main object\n- Use square brackets [ ] for the missing_info array\n- Use double quotes \" \" for all strings\n- Escape any quotes inside strings with backslash\n- missing_info must be an array of strings (can be empty [])\n- tailored_resume must be a markdown-formatted string containing the full resume\n\nBOTH FIELDS ARE MANDATORY - DO NOT OMIT EITHER ONE.\n").toList

/-- The `FULL_RESUME:` header line; also the anchor of the first textual
replacement performed on resumption (source line 220). -/
def fullResumeHdr : Str := ("FULL_RESUME:\n").toList

/-- The `ADDITIONAL_COLLECTED_INFO:` header line; anchor of the second
textual replacement (source line 224). -/
def addInfoHdr : Str := ("ADDITIONAL_COLLECTED_INFO:\n").toList

/-- Blank line separating prompt sections. -/
def blankSep : Str := ("\n\n").toList

/-- Header of the original-resume section. -/
def hdrOriginal : Str := ("\n\nORIGINAL_RESUME:\n").toList

/-- Header of the job-description section. -/
def hdrJob : Str := ("\n\nJOB_DESCRIPTION:\n").toList

/-- Header of the company-strategy section. -/
def hdrCompany : Str := ("\n\nCOMPANY_STRATEGY:\n").toList

/-- The prompt f-string of source lines 104-167, as a function of the six
interpolated context fields. -/
def mkPrompt (recruiter_feedback original_resume working_full_resume
    additional_info job_description company_strategy : Str) : Str :=
  promptIntro ++ recruiter_feedback ++ hdrOriginal ++ original_resume ++
    blankSep ++ fullResumeHdr ++ working_full_resume ++
    blankSep ++ addInfoHdr ++ additional_info ++
    hdrJob ++ job_description ++ hdrCompany ++ company_strategy ++ promptOutro

/-- The `updated_prompt` of source lines 220-226: replace the
`FULL_RESUME` section body and insert the collected info after the
`ADDITIONAL_COLLECTED_INFO` header, by plain textual replacement. -/
def updatePrompt (prompt full_resume working_full_resume additional_info : Str) : Str :=
  replaceAll
    (replaceAll prompt (fullResumeHdr ++ full_resume)
      (fullResumeHdr ++ working_full_resume))
    addInfoHdr (addInfoHdr ++ additional_info)

/-! ## External collaborators -/

/-- Presence of the five required context fields (source lines 76-82). -/
def requiredFieldsPresent (st : GraphState) : Bool :=
  st.original_resume.isSome && st.full_resume.isSome && st.job_description.isSome &&
    st.company_strategy.isSome && st.recruiter_feedback.isSome

/-- Modelled from the spec: the error message produced by the
`validate_fields` collaborator (src/utils/node_utils.py, not among the
sources); its exact wording is unspecified, only that an error string is
returned when a required field is missing. -/
def validationErrMsg : Str := ("Missing required fields for tailoring").toList

/-- Modelled from the spec: `validate_fields` (src/utils/node_utils.py,
not among the sources) checks the five required WorkingContext fields
for presence and returns an error message exactly when one is missing
("required context field missing; reported immediately, no generation
attempted"). -/
def validate_fields (st : GraphState) : Option Str :=
  if requiredFieldsPresent st then Option.none else some validationErrMsg

/-- Modelled from the spec: pydantic validation of the ResumptionPayload
shape (`InfoCollectionResult.model_validate`, an external library call):
the value must be a dictionary whose `updated_full_resume` entry is a
required string and whose `final_collected_info` entry is an optional
string defaulting to the empty string; anything else fails validation. -/
def validateInfoCollection : PyValue → Option InfoCollectionResult
  | PyValue.dict fs =>
    match fs.lookup (("updated_full_resume").toList) with
    | some (PyValue.str y) =>
      match fs.lookup (("final_collected_info").toList) with
      | some (PyValue.str x) => some ⟨x, y⟩
      | some _ => Option.none
      | Option.none => some ⟨[], y⟩
    | _ => Option.none
  | _ => Option.none

/-- Handling of the resumed value (source lines 202-213 and the handler
at lines 239-246): a falsy value means no payload; a truthy string is
first decoded as JSON (`json.loads`, given here as the external
parameter `jsonLoads`, `Option.none` meaning the decoder raised); the
resulting value is validated against the payload shape.  `Option.none`
overall means the step proceeds with the pre-resume result. -/
def extractPayload (jsonLoads : Str → Option PyValue) (v : PyValue) :
    Option InfoCollectionResult :=
  if pyTruthy v then
    match v with
    | PyValue.str s => (jsonLoads s).bind validateInfoCollection
    | _ => validateInfoCollection v
  else Option.none

/-- Error message of source line 177. -/
def genFailMsg (e : Str) : Str :=
  ("Failed to generate resume analysis: ").toList ++ e

/-- Error message of source line 233. -/
def genRestartFailMsg (e : Str) : Str :=
  ("Failed to generate resume analysis on restart: ").toList ++ e

/-- The artifact kind passed to the persistence sink (source line 250). -/
def tailoredResumeKind : Str := ("tailored_resume").toList

/-! ## The step

`resume_tailorer` is parameterised by its external collaborators:
`gen n p` is the generation service answer to the `n`-th call (0 =
initial, 1 = post-resume) with prompt `p` (`Except.error` = the call
raised, carried as its message); `rb` is the suspension mechanism behaviour; `jsonLoads` is the JSON decoder; `saveExc` tells whether the
persistence sink raises (`some msg`) or succeeds (`Option.none`). -/

/-- FINALIZE (source lines 248-260): persist the chosen result, then
return `{tailored_resume, missing_info}`; a raising persistence sink
makes the body raise instead. -/
def finalizeStep (user_id job_id : Str) (result : ResumeAnalysisAndGeneration)
    (saveExc : Option Str) (gens : List Str) (ints : List InterruptData) :
    Except PyExc StepReturn × Trace :=
  let tr : Trace := ⟨gens, ints, [(user_id, job_id, tailoredResumeKind, result.tailored_resume)]⟩
  match saveExc with
  | some m => (Except.error (PyExc.other m), tr)
  | Option.none => (Except.ok (StepReturn.ok result.tailored_resume result.missing_info), tr)

/-- The prompt of the initial generation call, built from the validated
state with empty accumulated info (source lines 99-167). -/
def initialPrompt (st : GraphState) : Str :=
  mkPrompt (st.recruiter_feedback.getD []) (st.original_resume.getD [])
    (st.full_resume.getD []) [] (st.job_description.getD []) (st.company_strategy.getD [])

/-- The prompt of the post-resume generation call (source lines 220-226):
the initial prompt with the full resume replaced by the payload
`updated_full_resume` and the payload `final_collected_info` inserted,
both by textual replacement. -/
def restartPrompt (st : GraphState) (ic : InfoCollectionResult) : Str :=
  updatePrompt (initialPrompt st) (st.full_resume.getD [])
    ic.updated_full_resume ic.final_collected_info

/-- The `InterruptData` built at source lines 190-196: the first call
`missing_info` and `tailored_resume`, the identifiers, and the current
working full resume (still the state `full_resume` at that point). -/
def interruptDataOf (st : GraphState) (result : ResumeAnalysisAndGeneration) :
    InterruptData :=
  ⟨result.missing_info, result.tailored_resume, st.user_id, st.job_id, st.full_resume.getD []⟩

/-- Source lines 184-246: non-empty `missing_info` detected.  Build the
interrupt data, suspend; on an unresumed run the suspension signal is
raised; on a resumed run, extract the payload — if absent or invalid,
finalize with the pre-resume result; if valid, make the one retry
generation call, finalizing with its result on success and returning an
error dictionary if it raises (source lines 228-233). -/
def suspendPath (st : GraphState)
    (gen : Nat → Str → Except Str ResumeAnalysisAndGeneration)
    (rb : ResumeBehavior) (jsonLoads : Str → Option PyValue) (saveExc : Option Str)
    (result : ResumeAnalysisAndGeneration) : Except PyExc StepReturn × Trace :=
  let d : InterruptData := interruptDataOf st result
  match rb with
  | ResumeBehavior.noResume =>
    (Except.error (PyExc.graphInterrupt d), ⟨[initialPrompt st], [d], []⟩)
  | ResumeBehavior.resume v =>
    match extractPayload jsonLoads v with
    | Option.none => finalizeStep st.user_id st.job_id result saveExc [initialPrompt st] [d]
    | some ic =>
      match gen 1 (restartPrompt st ic) with
      | Except.error e =>
        (Except.ok (StepReturn.err (genRestartFailMsg e)),
          ⟨[initialPrompt st, restartPrompt st ic], [d], []⟩)
      | Except.ok result2 =>
        finalizeStep st.user_id st.job_id result2 saveExc
          [initialPrompt st, restartPrompt st ic] [d]

/-- Source lines 87-246, after validation has passed: make the initial
generation call; on failure return an error dictionary; with empty
`missing_info` finalize directly, otherwise take the suspension path. -/
def afterValidation (st : GraphState)
    (gen : Nat → Str → Except Str ResumeAnalysisAndGeneration)
    (rb : ResumeBehavior) (jsonLoads : Str → Option PyValue) (saveExc : Option Str) :
    Except PyExc StepReturn × Trace :=
  match gen 0 (initialPrompt st) with
  | Except.error e => (Except.ok (StepReturn.err (genFailMsg e)), ⟨[initialPrompt st], [], []⟩)
  | Except.ok result =>
    if result.missing_info.isEmpty then
      finalizeStep st.user_id st.job_id result saveExc [initialPrompt st] []
    else
      suspendPath st gen rb jsonLoads saveExc result

/-- The body of `resume_tailorer` (source lines 74-260): validate the
required fields, then proceed to generation. -/
def resume_tailorer_body (st : GraphState)
    (gen : Nat → Str → Except Str ResumeAnalysisAndGeneration)
    (rb : ResumeBehavior) (jsonLoads : Str → Option PyValue) (saveExc : Option Str) :
    Except PyExc StepReturn × Trace :=
  match validate_fields st with
  | some m => (Except.ok (StepReturn.err m), ⟨[], [], []⟩)
  | Option.none => afterValidation st gen rb jsonLoads saveExc

/-- Modelled from the spec: `handle_error` (src/utils/node_utils.py, not
among the sources) converts an exception into the structured
`{error: message}` result. -/
def handle_error (msg : Str) : StepReturn := StepReturn.err msg

/-- The exception boundary of source lines 262-266: `GraphInterrupt` is
re-raised unmodified; every other exception is converted by
`handle_error` into an error dictionary. -/
def applyBoundary : Except PyExc StepReturn → StepOutcome
  | Except.ok r => StepOutcome.ret r
  | Except.error (PyExc.graphInterrupt d) => StepOutcome.raised (PyExc.graphInterrupt d)
  | Except.error (PyExc.other m) => StepOutcome.ret (handle_error m)

/-- The step `resume_tailorer` (source lines 54-266): its body wrapped in
the exception boundary, together with the interaction trace. -/
def resume_tailorer (st : GraphState)
    (gen : Nat → Str → Except Str ResumeAnalysisAndGeneration)
    (rb : ResumeBehavior) (jsonLoads : Str → Option PyValue) (saveExc : Option Str) :
    StepOutcome × Trace :=
  (applyBoundary (resume_tailorer_body st gen rb jsonLoads saveExc).1,
    (resume_tailorer_body st gen rb jsonLoads saveExc).2)

/-! ## Correctness of the textual prompt update

The two `str.replace` calls of source lines 220-226 rewrite the prompt
by plain textual matching.  They coincide with substitution of the
context fields exactly when each pattern occurs only at its intended
header position; `cleanBefore` hypotheses make that precise. -/

/-- No occurrence of the first replacement pattern starts inside the
prompt text before the `FULL_RESUME:` header, nor after its section. -/
def promptClean1 (rf orig R jd cs : Str) : Prop :=
  cleanBefore (fullResumeHdr ++ R) (promptIntro ++ rf ++ hdrOriginal ++ orig ++ blankSep)
      ((fullResumeHdr ++ R) ++ (blankSep ++ addInfoHdr ++ hdrJob ++ jd ++ hdrCompany ++ cs ++ promptOutro)) = true
  ∧ cleanBefore (fullResumeHdr ++ R) (blankSep ++ addInfoHdr ++ hdrJob ++ jd ++ hdrCompany ++ cs ++ promptOutro) [] = true

/-- No occurrence of the `ADDITIONAL_COLLECTED_INFO:` header starts in
the once-replaced prompt other than at its own header position. -/
def promptClean2 (rf orig jd cs Y : Str) : Prop :=
  cleanBefore addInfoHdr (promptIntro ++ rf ++ hdrOriginal ++ orig ++ blankSep ++ fullResumeHdr ++ Y ++ blankSep)
      (addInfoHdr ++ (hdrJob ++ jd ++ hdrCompany ++ cs ++ promptOutro)) = true
  ∧ cleanBefore addInfoHdr (hdrJob ++ jd ++ hdrCompany ++ cs ++ promptOutro) [] = true

/-- Both replacement patterns occur only at their header positions. -/
def promptNoInterference (rf orig R jd cs Y : Str) : Prop :=
  promptClean1 rf orig R jd cs ∧ promptClean2 rf orig jd cs Y

instance (rf orig R jd cs : Str) : Decidable (promptClean1 rf orig R jd cs) :=
  instDecidableAnd

instance (rf orig jd cs Y : Str) : Decidable (promptClean2 rf orig jd cs Y) :=
  instDecidableAnd

instance (rf orig R jd cs Y : Str) : Decidable (promptNoInterference rf orig R jd cs Y) :=
  instDecidableAnd

/-! ## Properties of the step -/

/-- Any fuel at least the string length gives the same scan result. -/
theorem replaceAllF_congr (pat rep : Str) (hp : pat ≠ []) :
    ∀ n, ∀ s : Str, s.length ≤ n → ∀ m, s.length ≤ m →
      replaceAllF pat rep n s = replaceAllF pat rep m s := by
  intro n
  induction n using Nat.strong_induction_on with
  | _ n ih =>
    intro s hs m hm
    match s with
    | [] =>
      cases n <;> cases m <;> rfl
    | c :: t =>
      cases n with
      | zero => simp at hs
      | succ n2 =>
        cases m with
        | zero => simp at hm
        | succ m2 =>
          simp only [List.length_cons] at hs hm
          have hplen : 0 < pat.length := List.length_pos.mpr hp
          by_cases hpre : pat <+: (c :: t)
          · simp only [replaceAllF, if_pos hpre]
            congr 1
            refine ih n2 (Nat.lt_succ_self n2) _ ?_ m2 ?_ <;>
              simp only [List.length_drop, List.length_cons] <;> omega
          · simp only [replaceAllF, if_neg hpre]
            congr 1
            exact ih n2 (Nat.lt_succ_self n2) t (by omega) m2 (by omega)

/-- A scan step over a position where the pattern does not match. -/
theorem replaceAll_cons_nomatch (pat rep : Str) (c : Char) (t : Str)
    (h : ¬ pat <+: (c :: t)) :
    replaceAll (c :: t) pat rep = c :: replaceAll t pat rep := by
  simp only [replaceAll, List.length_cons, replaceAllF, if_neg h]

theorem replaceAll_nil (pat rep : Str) : replaceAll [] pat rep = [] := rfl

/-- If no occurrence of `pat` starts inside `a`, replacement walks
through `a` unchanged. -/
theorem replaceAll_skip (pat rep : Str) :
    ∀ a s : Str, cleanBefore pat a s = true →
      replaceAll (a ++ s) pat rep = a ++ replaceAll s pat rep := by
  intro a
  induction a with
  | nil => intro s _; simp
  | cons c a2 ih =>
    intro s h
    simp only [cleanBefore, Bool.and_eq_true, Bool.not_eq_true',
      decide_eq_false_iff_not] at h
    have hrw : (c :: a2) ++ s = c :: (a2 ++ s) := rfl
    rw [hrw, replaceAll_cons_nomatch pat rep c (a2 ++ s) h.1]
    rw [ih s h.2]
    simp

/-- Replacement of a pattern sitting at the front of the string. -/
theorem replaceAll_head (pat rep s : Str) (hp : pat ≠ []) :
    replaceAll (pat ++ s) pat rep = rep ++ replaceAll s pat rep := by
  match pat, hp with
  | c :: pt, _ =>
    have hrw : (c :: pt) ++ s = c :: (pt ++ s) := rfl
    rw [replaceAll, hrw]
    simp only [List.length_cons]
    simp only [replaceAllF, if_pos (show (c :: pt) <+: c :: (pt ++ s) from ⟨s, by simp⟩)]
    have hdrop : (c :: (pt ++ s)).drop (c :: pt).length = s := by
      simp only [List.length_cons, List.drop_succ_cons]
      exact List.drop_left pt s
    rw [hdrop]
    congr 1
    exact replaceAllF_congr (c :: pt) rep (List.cons_ne_nil c pt) (pt ++ s).length s
      (by simp) s.length (le_refl _)

/-- A string containing no occurrence of `pat` is left unchanged. -/
theorem replaceAll_of_clean (pat rep s : Str) (h : cleanBefore pat s [] = true) :
    replaceAll s pat rep = s := by
  have h2 := replaceAll_skip pat rep s [] h
  simpa [replaceAll_nil] using h2

/-- One textual replacement of a pattern occurring exactly at the split
point and nowhere else. -/
theorem replaceAll_at (pat rep a b : Str) (hp : pat ≠ [])
    (ha : cleanBefore pat a (pat ++ b) = true) (hb : cleanBefore pat b [] = true) :
    replaceAll (a ++ (pat ++ b)) pat rep = a ++ (rep ++ b) := by
  rw [replaceAll_skip pat rep a (pat ++ b) ha, replaceAll_head pat rep b hp,
    replaceAll_of_clean pat rep b hb]

/-- Under non-interference, the textual update of the prompt equals the
prompt rebuilt from the updated context. -/
theorem updatePrompt_eq (rf orig R jd cs Y X : Str)
    (h : promptNoInterference rf orig R jd cs Y) :
    updatePrompt (mkPrompt rf orig R [] jd cs) R Y X = mkPrompt rf orig Y X jd cs := by
  obtain ⟨⟨h1, h2⟩, h3, h4⟩ := h
  have hp1 : fullResumeHdr ++ R ≠ [] := by
    intro hc
    exact absurd (List.append_eq_nil.mp hc).1 (by decide)
  have hp2 : addInfoHdr ≠ [] := by decide
  have hP : mkPrompt rf orig R [] jd cs
      = (promptIntro ++ rf ++ hdrOriginal ++ orig ++ blankSep) ++
          ((fullResumeHdr ++ R) ++
            (blankSep ++ addInfoHdr ++ hdrJob ++ jd ++ hdrCompany ++ cs ++ promptOutro)) := by
    simp [mkPrompt, List.append_assoc]
  have hQ : (promptIntro ++ rf ++ hdrOriginal ++ orig ++ blankSep) ++
        ((fullResumeHdr ++ Y) ++
          (blankSep ++ addInfoHdr ++ hdrJob ++ jd ++ hdrCompany ++ cs ++ promptOutro))
      = (promptIntro ++ rf ++ hdrOriginal ++ orig ++ blankSep ++ fullResumeHdr ++ Y ++ blankSep) ++
          (addInfoHdr ++ (hdrJob ++ jd ++ hdrCompany ++ cs ++ promptOutro)) := by
    simp [List.append_assoc]
  have hR : (promptIntro ++ rf ++ hdrOriginal ++ orig ++ blankSep ++ fullResumeHdr ++ Y ++ blankSep) ++
        ((addInfoHdr ++ X) ++ (hdrJob ++ jd ++ hdrCompany ++ cs ++ promptOutro))
      = mkPrompt rf orig Y X jd cs := by
    simp [mkPrompt, List.append_assoc]
  rw [updatePrompt, hP,
    replaceAll_at (fullResumeHdr ++ R) (fullResumeHdr ++ Y) _ _ hp1 h1 h2, hQ,
    replaceAll_at addInfoHdr (addInfoHdr ++ X) _ _ hp2 h3 h4, hR]

theorem body_of_missing_field (st : GraphState) (gen) (rb) (jl) (se)
    (h : requiredFieldsPresent st = false) :
    resume_tailorer_body st gen rb jl se
      = (Except.ok (StepReturn.err validationErrMsg), ⟨[], [], []⟩) := by
  simp [resume_tailorer_body, validate_fields, h]

theorem body_of_gen0_err (st : GraphState) (gen) (rb) (jl) (se) (e : Str)
    (hv : requiredFieldsPresent st = true)
    (h1 : gen 0 (initialPrompt st) = Except.error e) :
    resume_tailorer_body st gen rb jl se
      = (Except.ok (StepReturn.err (genFailMsg e)), ⟨[initialPrompt st], [], []⟩) := by
  simp [resume_tailorer_body, validate_fields, hv, afterValidation, h1]

theorem body_of_empty_missing (st : GraphState) (gen) (rb) (jl) (se)
    (r1 : ResumeAnalysisAndGeneration)
    (hv : requiredFieldsPresent st = true)
    (h1 : gen 0 (initialPrompt st) = Except.ok r1)
    (hmi : r1.missing_info = []) :
    resume_tailorer_body st gen rb jl se
      = finalizeStep st.user_id st.job_id r1 se [initialPrompt st] [] := by
  simp [resume_tailorer_body, validate_fields, hv, afterValidation, h1, hmi]

theorem body_of_suspend (st : GraphState) (gen) (rb) (jl) (se)
    (r1 : ResumeAnalysisAndGeneration)
    (hv : requiredFieldsPresent st = true)
    (h1 : gen 0 (initialPrompt st) = Except.ok r1)
    (hmi : r1.missing_info ≠ []) :
    resume_tailorer_body st gen rb jl se = suspendPath st gen rb jl se r1 := by
  have hie : r1.missing_info.isEmpty = false := by
    simp [List.isEmpty_eq_false, hmi]
  simp [resume_tailorer_body, validate_fields, hv, afterValidation, h1, hie]

theorem suspendPath_noResume (st : GraphState) (gen) (jl) (se)
    (r1 : ResumeAnalysisAndGeneration) :
    suspendPath st gen ResumeBehavior.noResume jl se r1
      = (Except.error (PyExc.graphInterrupt (interruptDataOf st r1)),
          ⟨[initialPrompt st], [interruptDataOf st r1], []⟩) := by
  simp [suspendPath]

theorem suspendPath_no_payload (st : GraphState) (gen) (v : PyValue) (jl) (se)
    (r1 : ResumeAnalysisAndGeneration)
    (hex : extractPayload jl v = Option.none) :
    suspendPath st gen (ResumeBehavior.resume v) jl se r1
      = finalizeStep st.user_id st.job_id r1 se [initialPrompt st] [interruptDataOf st r1] := by
  simp [suspendPath, hex]

theorem suspendPath_retry_err (st : GraphState) (gen) (v : PyValue) (jl) (se)
    (r1 : ResumeAnalysisAndGeneration) (ic : InfoCollectionResult) (e : Str)
    (hex : extractPayload jl v = some ic)
    (h2 : gen 1 (restartPrompt st ic) = Except.error e) :
    suspendPath st gen (ResumeBehavior.resume v) jl se r1
      = (Except.ok (StepReturn.err (genRestartFailMsg e)),
          ⟨[initialPrompt st, restartPrompt st ic], [interruptDataOf st r1], []⟩) := by
  simp [suspendPath, hex, h2]

theorem suspendPath_retry_ok (st : GraphState) (gen) (v : PyValue) (jl) (se)
    (r1 r2 : ResumeAnalysisAndGeneration) (ic : InfoCollectionResult)
    (hex : extractPayload jl v = some ic)
    (h2 : gen 1 (restartPrompt st ic) = Except.ok r2) :
    suspendPath st gen (ResumeBehavior.resume v) jl se r1
      = finalizeStep st.user_id st.job_id r2 se
          [initialPrompt st, restartPrompt st ic] [interruptDataOf st r1] := by
  simp [suspendPath, hex, h2]

theorem finalizeStep_trace (u j : Str) (r : ResumeAnalysisAndGeneration)
    (se : Option Str) (gens : List Str) (ints : List InterruptData) :
    (finalizeStep u j r se gens ints).2
      = ⟨gens, ints, [(u, j, tailoredResumeKind, r.tailored_resume)]⟩ := by
  cases se <;> rfl

theorem finalizeStep_fst_ok (u j : Str) (r : ResumeAnalysisAndGeneration)
    (gens : List Str) (ints : List InterruptData) :
    (finalizeStep u j r Option.none gens ints).1
      = Except.ok (StepReturn.ok r.tailored_resume r.missing_info) := rfl

theorem finalizeStep_fst_raise (u j : Str) (r : ResumeAnalysisAndGeneration)
    (m : Str) (gens : List Str) (ints : List InterruptData) :
    (finalizeStep u j r (some m) gens ints).1 = Except.error (PyExc.other m) := rfl

/-- A resumption whose payload extraction succeeds performs exactly the
two generation calls, the second with the textually updated prompt. -/
theorem retry_prompts (st : GraphState) (gen) (v : PyValue) (jl) (se)
    (r1 : ResumeAnalysisAndGeneration) (ic : InfoCollectionResult)
    (hv : requiredFieldsPresent st = true)
    (h1 : gen 0 (initialPrompt st) = Except.ok r1)
    (hmi : r1.missing_info ≠ [])
    (hex : extractPayload jl v = some ic) :
    (resume_tailorer st gen (ResumeBehavior.resume v) jl se).2.prompts
      = [initialPrompt st, restartPrompt st ic] := by
  show (resume_tailorer_body st gen (ResumeBehavior.resume v) jl se).2.prompts = _
  rw [body_of_suspend st gen (ResumeBehavior.resume v) jl se r1 hv h1 hmi]
  cases h2 : gen 1 (restartPrompt st ic) with
  | error e => rw [suspendPath_retry_err st gen v jl se r1 ic e hex h2]
  | ok r2 => rw [suspendPath_retry_ok st gen v jl se r1 r2 ic hex h2, finalizeStep_trace]

/-- A resumption whose payload extraction fails (absent, falsy, broken
JSON or wrong shape) performs no further generation call and finalizes
with the pre-resume result. -/
theorem no_retry_finalize (st : GraphState) (gen) (v : PyValue) (jl) (se)
    (r1 : ResumeAnalysisAndGeneration)
    (hv : requiredFieldsPresent st = true)
    (h1 : gen 0 (initialPrompt st) = Except.ok r1)
    (hmi : r1.missing_info ≠ [])
    (hex : extractPayload jl v = Option.none) :
    (resume_tailorer st gen (ResumeBehavior.resume v) jl se).2.prompts = [initialPrompt st]
    ∧ (resume_tailorer st gen (ResumeBehavior.resume v) jl se).2.saves
        = [(st.user_id, st.job_id, tailoredResumeKind, r1.tailored_resume)]
    ∧ (se = Option.none →
        (resume_tailorer st gen (ResumeBehavior.resume v) jl se).1
          = StepOutcome.ret (StepReturn.ok r1.tailored_resume r1.missing_info)) := by
  have hb : resume_tailorer_body st gen (ResumeBehavior.resume v) jl se
      = finalizeStep st.user_id st.job_id r1 se [initialPrompt st] [interruptDataOf st r1] := by
    rw [body_of_suspend st gen (ResumeBehavior.resume v) jl se r1 hv h1 hmi]
    exact suspendPath_no_payload st gen v jl se r1 hex
  refine ⟨?_, ?_, ?_⟩
  · show (resume_tailorer_body st gen (ResumeBehavior.resume v) jl se).2.prompts = _
    rw [hb, finalizeStep_trace]
  · show (resume_tailorer_body st gen (ResumeBehavior.resume v) jl se).2.saves = _
    rw [hb, finalizeStep_trace]
  · intro hse
    show applyBoundary (resume_tailorer_body st gen (ResumeBehavior.resume v) jl se).1 = _
    rw [hb, hse, finalizeStep_fst_ok]
    rfl

/-- C2: For every step invocation, at most one suspension occurs and at
most two generation calls are made in total (one initial, at most one
post-resume), regardless of whether the second call missing_info is
still non-empty. -/
theorem at_most_two_calls_one_suspension (st : GraphState) (gen) (rb) (jl) (se) :
    (resume_tailorer st gen rb jl se).2.prompts.length ≤ 2
    ∧ (resume_tailorer st gen rb jl se).2.interrupts.length ≤ 1 := by
  suffices h : (resume_tailorer_body st gen rb jl se).2.prompts.length ≤ 2
      ∧ (resume_tailorer_body st gen rb jl se).2.interrupts.length ≤ 1 from h
  cases hv : requiredFieldsPresent st with
  | false =>
    rw [body_of_missing_field st gen rb jl se hv]
    exact ⟨by simp, by simp⟩
  | true =>
    cases hg : gen 0 (initialPrompt st) with
    | error e =>
      rw [body_of_gen0_err st gen rb jl se e hv hg]
      exact ⟨by simp, by simp⟩
    | ok r1 =>
      by_cases hmi : r1.missing_info = []
      · rw [body_of_empty_missing st gen rb jl se r1 hv hg hmi, finalizeStep_trace]
        exact ⟨by simp, by simp⟩
      · rw [body_of_suspend st gen rb jl se r1 hv hg hmi]
        cases rb with
        | noResume =>
          rw [suspendPath_noResume]
          exact ⟨by simp, by simp⟩
        | resume v =>
          cases hex : extractPayload jl v with
          | none =>
            rw [suspendPath_no_payload st gen v jl se r1 hex, finalizeStep_trace]
            exact ⟨by simp, by simp⟩
          | some ic =>
            cases h2 : gen 1 (restartPrompt st ic) with
            | error e =>
              rw [suspendPath_retry_err st gen v jl se r1 ic e hex h2]
              exact ⟨by simp, by simp⟩
            | ok r2 =>
              rw [suspendPath_retry_ok st gen v jl se r1 r2 ic hex h2, finalizeStep_trace]
              exact ⟨by simp, by simp⟩

/-- C8: For every step input in which any of the five required
WorkingContext fields is missing, the step returns an error result,
invokes the Generator zero times, and does not suspend. -/
theorem missing_field_error_no_generation (st : GraphState) (gen) (rb) (jl) (se)
    (h : requiredFieldsPresent st = false) :
    (resume_tailorer st gen rb jl se).1 = StepOutcome.ret (StepReturn.err validationErrMsg)
    ∧ (resume_tailorer st gen rb jl se).2 = ⟨[], [], []⟩ := by
  have hb := body_of_missing_field st gen rb jl se h
  constructor
  · show applyBoundary (resume_tailorer_body st gen rb jl se).1 = _
    rw [hb]
    rfl
  · show (resume_tailorer_body st gen rb jl se).2 = _
    rw [hb]

/-- C8 witness: a state with `full_resume` absent yields the error
result, an empty generation-call trace and no suspension. -/
theorem missing_field_error_no_generation_w :
    (resume_tailorer
        ⟨("u").toList, ("j").toList, some (("o").toList), Option.none,
          some (("d").toList), some (("c").toList), some (("f").toList)⟩
        (fun _ _ => Except.ok ⟨[], ("v1").toList⟩)
        ResumeBehavior.noResume (fun _ => Option.none) Option.none).1
      = StepOutcome.ret (StepReturn.err validationErrMsg)
    ∧ (resume_tailorer
        ⟨("u").toList, ("j").toList, some (("o").toList), Option.none,
          some (("d").toList), some (("c").toList), some (("f").toList)⟩
        (fun _ _ => Except.ok ⟨[], ("v1").toList⟩)
        ResumeBehavior.noResume (fun _ => Option.none) Option.none).2 = ⟨[], [], []⟩ :=
  missing_field_error_no_generation _ _ _ _ _ (by rfl)

/-- C7: For every valid WorkingContext input, if the first Generator
call succeeds with empty missing_info, the step finalizes without
suspending and returns exactly that call tailored_artifact and its
empty missing_info. -/
theorem empty_missing_finalizes_directly (st : GraphState) (gen) (rb) (jl) (se)
    (r1 : ResumeAnalysisAndGeneration)
    (hv : requiredFieldsPresent st = true)
    (h1 : gen 0 (initialPrompt st) = Except.ok r1)
    (hmi : r1.missing_info = []) :
    (resume_tailorer st gen rb jl se).2.interrupts = []
    ∧ (resume_tailorer st gen rb jl se).2.prompts = [initialPrompt st]
    ∧ (resume_tailorer st gen rb jl se).2.saves
        = [(st.user_id, st.job_id, tailoredResumeKind, r1.tailored_resume)]
    ∧ (se = Option.none →
        (resume_tailorer st gen rb jl se).1
          = StepOutcome.ret (StepReturn.ok r1.tailored_resume r1.missing_info)) := by
  have hb := body_of_empty_missing st gen rb jl se r1 hv h1 hmi
  refine ⟨?_, ?_, ?_, ?_⟩
  · show (resume_tailorer_body st gen rb jl se).2.interrupts = _
    rw [hb, finalizeStep_trace]
  · show (resume_tailorer_body st gen rb jl se).2.prompts = _
    rw [hb, finalizeStep_trace]
  · show (resume_tailorer_body st gen rb jl se).2.saves = _
    rw [hb, finalizeStep_trace]
  · intro hse
    show applyBoundary (resume_tailorer_body st gen rb jl se).1 = _
    rw [hb, hse, finalizeStep_fst_ok]
    rfl

/-- C7 witness: with every field present and a gap-free first result,
the step returns that artifact, saves it once, and never suspends. -/
theorem empty_missing_finalizes_directly_w :
    (resume_tailorer
        ⟨("u").toList, ("j").toList, some (("o").toList), some (("r").toList),
          some (("d").toList), some (("c").toList), some (("f").toList)⟩
        (fun _ _ => Except.ok ⟨[], ("v1").toList⟩)
        ResumeBehavior.noResume (fun _ => Option.none) Option.none).2.interrupts = []
    ∧ (resume_tailorer
        ⟨("u").toList, ("j").toList, some (("o").toList), some (("r").toList),
          some (("d").toList), some (("c").toList), some (("f").toList)⟩
        (fun _ _ => Except.ok ⟨[], ("v1").toList⟩)
        ResumeBehavior.noResume (fun _ => Option.none) Option.none).1
      = StepOutcome.ret (StepReturn.ok (("v1").toList) []) :=
  ⟨(empty_missing_finalizes_directly _ _ _ _ _ ⟨[], ("v1").toList⟩
      (by rfl) (by rfl) (by rfl)).1,
   (empty_missing_finalizes_directly _ _ _ _ _ ⟨[], ("v1").toList⟩
      (by rfl) (by rfl) (by rfl)).2.2.2 (by rfl)⟩

/-- C5: For every step invocation whose first Generator call succeeds
with non-empty missing_info, the step suspends exactly once, and the
ContinuationRequest handed to the suspension mechanism carries
tailored_resume and missing_info exactly equal to the first call
result, plus the user identifier, job identifier, and the current
full_resume. -/
theorem suspend_carries_first_result (st : GraphState) (gen) (rb) (jl) (se)
    (r1 : ResumeAnalysisAndGeneration)
    (hv : requiredFieldsPresent st = true)
    (h1 : gen 0 (initialPrompt st) = Except.ok r1)
    (hmi : r1.missing_info ≠ []) :
    (resume_tailorer st gen rb jl se).2.interrupts
      = [⟨r1.missing_info, r1.tailored_resume, st.user_id, st.job_id, st.full_resume.getD []⟩]
    ∧ (rb = ResumeBehavior.noResume →
        (resume_tailorer st gen rb jl se).1
          = StepOutcome.raised (PyExc.graphInterrupt
              ⟨r1.missing_info, r1.tailored_resume, st.user_id, st.job_id,
                st.full_resume.getD []⟩)) := by
  have hb := body_of_suspend st gen rb jl se r1 hv h1 hmi
  constructor
  · show (resume_tailorer_body st gen rb jl se).2.interrupts = _
    rw [hb]
    cases rb with
    | noResume =>
      rw [suspendPath_noResume]
      rfl
    | resume v =>
      cases hex : extractPayload jl v with
      | none =>
        rw [suspendPath_no_payload st gen v jl se r1 hex, finalizeStep_trace]
        rfl
      | some ic =>
        cases h2 : gen 1 (restartPrompt st ic) with
        | error e =>
          rw [suspendPath_retry_err st gen v jl se r1 ic e hex h2]
          rfl
        | ok r2 =>
          rw [suspendPath_retry_ok st gen v jl se r1 r2 ic hex h2, finalizeStep_trace]
          rfl
  · intro hrb
    show applyBoundary (resume_tailorer_body st gen rb jl se).1 = _
    rw [hb, hrb, suspendPath_noResume]
    rfl

/-- C5 witness: a concrete gap-producing first call suspends once with
exactly the first call artifact, gap list, identifiers and resume. -/
theorem suspend_carries_first_result_w :
    (resume_tailorer
        ⟨("u").toList, ("j").toList, some (("o").toList), some (("r").toList),
          some (("d").toList), some (("c").toList), some (("f").toList)⟩
        (fun _ _ => Except.ok ⟨[("g").toList], ("v1").toList⟩)
        ResumeBehavior.noResume (fun _ => Option.none) Option.none).2.interrupts
      = [⟨[("g").toList], ("v1").toList, ("u").toList, ("j").toList, ("r").toList⟩]
    ∧ (resume_tailorer
        ⟨("u").toList, ("j").toList, some (("o").toList), some (("r").toList),
          some (("d").toList), some (("c").toList), some (("f").toList)⟩
        (fun _ _ => Except.ok ⟨[("g").toList], ("v1").toList⟩)
        ResumeBehavior.noResume (fun _ => Option.none) Option.none).1
      = StepOutcome.raised (PyExc.graphInterrupt
          ⟨[("g").toList], ("v1").toList, ("u").toList, ("j").toList, ("r").toList⟩) :=
  ⟨(suspend_carries_first_result _ _ _ _ _ ⟨[("g").toList], ("v1").toList⟩
      (by rfl) (by rfl) (by simp)).1,
   (suspend_carries_first_result _ _ _ _ _ ⟨[("g").toList], ("v1").toList⟩
      (by rfl) (by rfl) (by simp)).2 (by rfl)⟩

/-- C6: For every resumption with an invalid payload and for every
resumption with no payload at all, the step makes zero additional
Generator calls and finalizes using the pre-resume GenerationResult. -/
theorem invalid_or_absent_payload_keeps_first_result (st : GraphState) (gen) (v : PyValue)
    (jl) (se) (r1 : ResumeAnalysisAndGeneration)
    (hv : requiredFieldsPresent st = true)
    (h1 : gen 0 (initialPrompt st) = Except.ok r1)
    (hmi : r1.missing_info ≠ [])
    (hex : extractPayload jl v = Option.none) :
    (resume_tailorer st gen (ResumeBehavior.resume v) jl se).2.prompts = [initialPrompt st]
    ∧ (resume_tailorer st gen (ResumeBehavior.resume v) jl se).2.saves
        = [(st.user_id, st.job_id, tailoredResumeKind, r1.tailored_resume)]
    ∧ (se = Option.none →
        (resume_tailorer st gen (ResumeBehavior.resume v) jl se).1
          = StepOutcome.ret (StepReturn.ok r1.tailored_resume r1.missing_info)) :=
  no_retry_finalize st gen v jl se r1 hv h1 hmi hex

/-- C6 witness: resuming with no payload (Python `None`) and, separately,
with a dictionary missing `updated_full_resume`, both finalize with the
first call artifact after a single generation call. -/
theorem invalid_or_absent_payload_keeps_first_result_w :
    ((resume_tailorer
        ⟨("u").toList, ("j").toList, some (("o").toList), some (("r").toList),
          some (("d").toList), some (("c").toList), some (("f").toList)⟩
        (fun _ _ => Except.ok ⟨[("g").toList], ("v1").toList⟩)
        (ResumeBehavior.resume PyValue.none) (fun _ => Option.none) Option.none).2.prompts.length = 1
      ∧ (resume_tailorer
        ⟨("u").toList, ("j").toList, some (("o").toList), some (("r").toList),
          some (("d").toList), some (("c").toList), some (("f").toList)⟩
        (fun _ _ => Except.ok ⟨[("g").toList], ("v1").toList⟩)
        (ResumeBehavior.resume PyValue.none) (fun _ => Option.none) Option.none).1
        = StepOutcome.ret (StepReturn.ok (("v1").toList) [("g").toList]))
    ∧ ((resume_tailorer
        ⟨("u").toList, ("j").toList, some (("o").toList), some (("r").toList),
          some (("d").toList), some (("c").toList), some (("f").toList)⟩
        (fun _ _ => Except.ok ⟨[("g").toList], ("v1").toList⟩)
        (ResumeBehavior.resume (PyValue.dict [(("final_collected_info").toList,
            PyValue.str (("x").toList))]))
        (fun _ => Option.none) Option.none).2.prompts.length = 1
      ∧ (resume_tailorer
        ⟨("u").toList, ("j").toList, some (("o").toList), some (("r").toList),
          some (("d").toList), some (("c").toList), some (("f").toList)⟩
        (fun _ _ => Except.ok ⟨[("g").toList], ("v1").toList⟩)
        (ResumeBehavior.resume (PyValue.dict [(("final_collected_info").toList,
            PyValue.str (("x").toList))]))
        (fun _ => Option.none) Option.none).1
        = StepOutcome.ret (StepReturn.ok (("v1").toList) [("g").toList])) :=
  ⟨⟨by
      rw [(invalid_or_absent_payload_keeps_first_result _ _ _ _ _
        ⟨[("g").toList], ("v1").toList⟩ (by rfl) (by rfl) (by simp) (by rfl)).1]
      rfl,
    (invalid_or_absent_payload_keeps_first_result _ _ _ _ _
        ⟨[("g").toList], ("v1").toList⟩ (by rfl) (by rfl) (by simp) (by rfl)).2.2 (by rfl)⟩,
   ⟨by
      rw [(invalid_or_absent_payload_keeps_first_result _ _ _ _ _
        ⟨[("g").toList], ("v1").toList⟩ (by rfl) (by rfl) (by simp) (by rfl)).1]
      rfl,
    (invalid_or_absent_payload_keeps_first_result _ _ _ _ _
        ⟨[("g").toList], ("v1").toList⟩ (by rfl) (by rfl) (by simp) (by rfl)).2.2 (by rfl)⟩⟩

/-- C4: The suspension signal raised at the suspend point propagates out
of the step unmodified, while every other exception raised inside the
step is caught at the step boundary and converted into a structured
error result; no other exception crosses the step boundary uncaught. -/
theorem suspension_propagates_others_converted (st : GraphState) (gen) (rb) (jl) (se) :
    (∀ d, (resume_tailorer_body st gen rb jl se).1 = Except.error (PyExc.graphInterrupt d) →
        (resume_tailorer st gen rb jl se).1 = StepOutcome.raised (PyExc.graphInterrupt d))
    ∧ (∀ m, (resume_tailorer_body st gen rb jl se).1 = Except.error (PyExc.other m) →
        (resume_tailorer st gen rb jl se).1 = StepOutcome.ret (handle_error m))
    ∧ (∀ e, (resume_tailorer st gen rb jl se).1 ≠ StepOutcome.raised (PyExc.other e)) := by
  refine ⟨fun d h => ?_, fun m h => ?_, fun e => ?_⟩
  · show applyBoundary (resume_tailorer_body st gen rb jl se).1 = _
    rw [h]
    rfl
  · show applyBoundary (resume_tailorer_body st gen rb jl se).1 = _
    rw [h]
    rfl
  · show applyBoundary (resume_tailorer_body st gen rb jl se).1 ≠ _
    cases hb : (resume_tailorer_body st gen rb jl se).1 with
    | ok r => simp [applyBoundary]
    | error exc =>
      cases exc with
      | graphInterrupt d => simp [applyBoundary]
      | other m => simp [applyBoundary, handle_error]

/-- C4 witness: a suspension propagates as the suspension signal with
its payload untouched, and a raising persistence sink is converted into
an error result at the boundary. -/
theorem suspension_propagates_others_converted_w :
    (resume_tailorer
        ⟨("u").toList, ("j").toList, some (("o").toList), some (("r").toList),
          some (("d").toList), some (("c").toList), some (("f").toList)⟩
        (fun _ _ => Except.ok ⟨[("g").toList], ("v1").toList⟩)
        ResumeBehavior.noResume (fun _ => Option.none) (some (("boom").toList))).1
      = StepOutcome.raised (PyExc.graphInterrupt
          ⟨[("g").toList], ("v1").toList, ("u").toList, ("j").toList, ("r").toList⟩)
    ∧ (resume_tailorer
        ⟨("u").toList, ("j").toList, some (("o").toList), some (("r").toList),
          some (("d").toList), some (("c").toList), some (("f").toList)⟩
        (fun _ _ => Except.ok ⟨[("g").toList], ("v1").toList⟩)
        (ResumeBehavior.resume PyValue.none) (fun _ => Option.none)
        (some (("boom").toList))).1
      = StepOutcome.ret (handle_error (("boom").toList)) :=
  ⟨(suspension_propagates_others_converted _ _ _ _ _).1
      ⟨[("g").toList], ("v1").toList, ("u").toList, ("j").toList, ("r").toList⟩ (by rfl),
   (suspension_propagates_others_converted _ _ _ _ _).2.1 (("boom").toList) (by rfl)⟩

/-- C10: A (truthy) string resumption payload is first decoded as JSON
before shape validation: a string decoding to a valid payload shape
triggers the one retry generation call, while a string that fails to
decode or decodes to an invalid shape finalizes with the pre-resume
result. -/
theorem string_payload_decoded_then_validated (st : GraphState) (gen) (jl) (se)
    (s : Str) (r1 : ResumeAnalysisAndGeneration)
    (hv : requiredFieldsPresent st = true)
    (h1 : gen 0 (initialPrompt st) = Except.ok r1)
    (hmi : r1.missing_info ≠ [])
    (hs : s ≠ []) :
    (∀ pv ic, jl s = some pv → validateInfoCollection pv = some ic →
        (resume_tailorer st gen (ResumeBehavior.resume (PyValue.str s)) jl se).2.prompts
          = [initialPrompt st, restartPrompt st ic])
    ∧ (jl s = Option.none →
        (resume_tailorer st gen (ResumeBehavior.resume (PyValue.str s)) jl se).2.prompts
            = [initialPrompt st]
        ∧ (se = Option.none →
            (resume_tailorer st gen (ResumeBehavior.resume (PyValue.str s)) jl se).1
              = StepOutcome.ret (StepReturn.ok r1.tailored_resume r1.missing_info)))
    ∧ (∀ pv, jl s = some pv → validateInfoCollection pv = Option.none →
        (resume_tailorer st gen (ResumeBehavior.resume (PyValue.str s)) jl se).2.prompts
            = [initialPrompt st]
        ∧ (se = Option.none →
            (resume_tailorer st gen (ResumeBehavior.resume (PyValue.str s)) jl se).1
              = StepOutcome.ret (StepReturn.ok r1.tailored_resume r1.missing_info))) := by
  have htr : pyTruthy (PyValue.str s) = true := by
    simp [pyTruthy, List.isEmpty_eq_false, hs]
  refine ⟨fun pv ic hjl hval => ?_, fun hjl => ?_, fun pv hjl hval => ?_⟩
  · exact retry_prompts st gen (PyValue.str s) jl se r1 ic hv h1 hmi
      (by simp [extractPayload, htr, hjl, hval])
  · have h := no_retry_finalize st gen (PyValue.str s) jl se r1 hv h1 hmi
      (by simp [extractPayload, htr, hjl])
    exact ⟨h.1, h.2.2⟩
  · have h := no_retry_finalize st gen (PyValue.str s) jl se r1 hv h1 hmi
      (by simp [extractPayload, htr, hjl, hval])
    exact ⟨h.1, h.2.2⟩

/-- C10 witness: a string payload whose JSON decoding yields a valid
payload dictionary triggers the retry call; one whose decoding raises
finalizes with the pre-resume result after a single call. -/
theorem string_payload_decoded_then_validated_w :
    (resume_tailorer
        ⟨("u").toList, ("j").toList, some (("o").toList), some (("r").toList),
          some (("d").toList), some (("c").toList), some (("f").toList)⟩
        (fun _ _ => Except.ok ⟨[("g").toList], ("v1").toList⟩)
        (ResumeBehavior.resume (PyValue.str (("p").toList)))
        (fun _ => some (PyValue.dict
          [(("updated_full_resume").toList, PyValue.str (("y").toList)),
           (("final_collected_info").toList, PyValue.str (("x").toList))]))
        Option.none).2.prompts
      = [initialPrompt
            ⟨("u").toList, ("j").toList, some (("o").toList), some (("r").toList),
              some (("d").toList), some (("c").toList), some (("f").toList)⟩,
         restartPrompt
            ⟨("u").toList, ("j").toList, some (("o").toList), some (("r").toList),
              some (("d").toList), some (("c").toList), some (("f").toList)⟩
            ⟨("x").toList, ("y").toList⟩]
    ∧ (resume_tailorer
        ⟨("u").toList, ("j").toList, some (("o").toList), some (("r").toList),
          some (("d").toList), some (("c").toList), some (("f").toList)⟩
        (fun _ _ => Except.ok ⟨[("g").toList], ("v1").toList⟩)
        (ResumeBehavior.resume (PyValue.str (("p").toList)))
        (fun _ => Option.none) Option.none).1
      = StepOutcome.ret (StepReturn.ok (("v1").toList) [("g").toList]) :=
  ⟨(string_payload_decoded_then_validated _ _ _ _ _ ⟨[("g").toList], ("v1").toList⟩
      (by rfl) (by rfl) (by simp) (by simp)).1 _ ⟨("x").toList, ("y").toList⟩
      (by rfl) (by rfl),
   ((string_payload_decoded_then_validated _ _ _ _ _ ⟨[("g").toList], ("v1").toList⟩
      (by rfl) (by rfl) (by simp) (by simp)).2.1 (by rfl)).2 (by rfl)⟩

/-- C1 counterexample: first call succeeds with a gap, the resumption
payload is valid, and the post-resume call raises — the step returns an
error result and persists nothing, instead of finalizing with the
pre-resume result as the claim states. -/
theorem restart_failure_cex :
    (resume_tailorer
        ⟨("u").toList, ("j").toList, some (("o").toList), some (("r").toList),
          some (("d").toList), some (("c").toList), some (("f").toList)⟩
        (fun n _ => if n == 0 then Except.ok ⟨[("g").toList], ("v1").toList⟩
                    else Except.error (("boom").toList))
        (ResumeBehavior.resume (PyValue.dict
          [(("updated_full_resume").toList, PyValue.str (("y").toList)),
           (("final_collected_info").toList, PyValue.str (("x").toList))]))
        (fun _ => Option.none) Option.none).1
      = StepOutcome.ret (StepReturn.err (genRestartFailMsg (("boom").toList)))
    ∧ (resume_tailorer
        ⟨("u").toList, ("j").toList, some (("o").toList), some (("r").toList),
          some (("d").toList), some (("c").toList), some (("f").toList)⟩
        (fun n _ => if n == 0 then Except.ok ⟨[("g").toList], ("v1").toList⟩
                    else Except.error (("boom").toList))
        (ResumeBehavior.resume (PyValue.dict
          [(("updated_full_resume").toList, PyValue.str (("y").toList)),
           (("final_collected_info").toList, PyValue.str (("x").toList))]))
        (fun _ => Option.none) Option.none).2.saves = []
    ∧ (resume_tailorer
        ⟨("u").toList, ("j").toList, some (("o").toList), some (("r").toList),
          some (("d").toList), some (("c").toList), some (("f").toList)⟩
        (fun n _ => if n == 0 then Except.ok ⟨[("g").toList], ("v1").toList⟩
                    else Except.error (("boom").toList))
        (ResumeBehavior.resume (PyValue.dict
          [(("updated_full_resume").toList, PyValue.str (("y").toList)),
           (("final_collected_info").toList, PyValue.str (("x").toList))]))
        (fun _ => Option.none) Option.none).1
      ≠ StepOutcome.ret (StepReturn.ok (("v1").toList) [("g").toList]) :=
  ⟨rfl, rfl, by decide⟩

/-- C1 amended: if the post-resume (second) generation call fails, the
step returns the error result built from the restart failure message and
persists nothing; it does not fall back to the pre-resume
GenerationResult. -/
theorem restart_failure_returns_error (st : GraphState) (gen) (v : PyValue) (jl) (se)
    (r1 : ResumeAnalysisAndGeneration) (ic : InfoCollectionResult) (e : Str)
    (hv : requiredFieldsPresent st = true)
    (h1 : gen 0 (initialPrompt st) = Except.ok r1)
    (hmi : r1.missing_info ≠ [])
    (hex : extractPayload jl v = some ic)
    (h2 : gen 1 (restartPrompt st ic) = Except.error e) :
    (resume_tailorer st gen (ResumeBehavior.resume v) jl se).1
      = StepOutcome.ret (StepReturn.err (genRestartFailMsg e))
    ∧ (resume_tailorer st gen (ResumeBehavior.resume v) jl se).2.saves = [] := by
  have hb : resume_tailorer_body st gen (ResumeBehavior.resume v) jl se
      = (Except.ok (StepReturn.err (genRestartFailMsg e)),
          ⟨[initialPrompt st, restartPrompt st ic], [interruptDataOf st r1], []⟩) := by
    rw [body_of_suspend st gen (ResumeBehavior.resume v) jl se r1 hv h1 hmi]
    exact suspendPath_retry_err st gen v jl se r1 ic e hex h2
  constructor
  · show applyBoundary (resume_tailorer_body st gen (ResumeBehavior.resume v) jl se).1 = _
    rw [hb]
    rfl
  · show (resume_tailorer_body st gen (ResumeBehavior.resume v) jl se).2.saves = _
    rw [hb]

/-- C1 amended witness: the concrete failing-restart run returns the
restart error and persists nothing. -/
theorem restart_failure_returns_error_w :
    (resume_tailorer
        ⟨("u2").toList, ("j2").toList, some (("o2").toList), some (("r2").toList),
          some (("d2").toList), some (("c2").toList), some (("f2").toList)⟩
        (fun n _ => if n == 0 then Except.ok ⟨[("g2").toList], ("w1").toList⟩
                    else Except.error (("kaput").toList))
        (ResumeBehavior.resume (PyValue.dict
          [(("updated_full_resume").toList, PyValue.str (("y2").toList))]))
        (fun _ => Option.none) (some (("se").toList))).1
      = StepOutcome.ret (StepReturn.err (genRestartFailMsg (("kaput").toList)))
    ∧ (resume_tailorer
        ⟨("u2").toList, ("j2").toList, some (("o2").toList), some (("r2").toList),
          some (("d2").toList), some (("c2").toList), some (("f2").toList)⟩
        (fun n _ => if n == 0 then Except.ok ⟨[("g2").toList], ("w1").toList⟩
                    else Except.error (("kaput").toList))
        (ResumeBehavior.resume (PyValue.dict
          [(("updated_full_resume").toList, PyValue.str (("y2").toList))]))
        (fun _ => Option.none) (some (("se").toList))).2.saves = [] :=
  restart_failure_returns_error _ _ _ _ _ ⟨[("g2").toList], ("w1").toList⟩
    ⟨[], ("y2").toList⟩ (("kaput").toList) (by rfl) (by rfl) (by simp) (by rfl) (by rfl)

/-- C9 counterexample: a generation result with an empty
tailored_resume finalizes with an empty artifact — nothing in the step
enforces non-emptiness of the returned artifact. -/
theorem finalized_artifact_nonempty_cex :
    (resume_tailorer
        ⟨("u").toList, ("j").toList, some (("o").toList), some (("r").toList),
          some (("d").toList), some (("c").toList), some (("f").toList)⟩
        (fun _ _ => Except.ok ⟨[], []⟩)
        ResumeBehavior.noResume (fun _ => Option.none) Option.none).1
      = StepOutcome.ret (StepReturn.ok [] [])
    ∧ (resume_tailorer
        ⟨("u").toList, ("j").toList, some (("o").toList), some (("r").toList),
          some (("d").toList), some (("c").toList), some (("f").toList)⟩
        (fun _ _ => Except.ok ⟨[], []⟩)
        ResumeBehavior.noResume (fun _ => Option.none) Option.none).2.saves
      = [(("u").toList, ("j").toList, tailoredResumeKind, [])] :=
  ⟨rfl, rfl⟩

/-- C9 amended: every finalized (success) artifact is the
tailored_resume of one of the generation calls, so it is non-empty
whenever every successful generation call returns a non-empty artifact;
the step itself does not enforce non-emptiness. -/
theorem finalized_artifact_from_generator (st : GraphState) (gen) (rb) (jl) (se)
    (hgen : ∀ n p r, gen n p = Except.ok r → r.tailored_resume ≠ []) :
    ∀ t mi, (resume_tailorer st gen rb jl se).1 = StepOutcome.ret (StepReturn.ok t mi) →
      t ≠ [] := by
  intro t mi h0
  have h : applyBoundary (resume_tailorer_body st gen rb jl se).1
      = StepOutcome.ret (StepReturn.ok t mi) := h0
  cases hv : requiredFieldsPresent st with
  | false =>
    rw [body_of_missing_field st gen rb jl se hv] at h
    simp [applyBoundary] at h
  | true =>
    cases hg : gen 0 (initialPrompt st) with
    | error e =>
      rw [body_of_gen0_err st gen rb jl se e hv hg] at h
      simp [applyBoundary] at h
    | ok r1 =>
      by_cases hmi : r1.missing_info = []
      · rw [body_of_empty_missing st gen rb jl se r1 hv hg hmi] at h
        cases se with
        | none =>
          rw [finalizeStep_fst_ok] at h
          simp [applyBoundary] at h
          obtain ⟨h1, h2⟩ := h
          subst h1
          exact hgen 0 _ r1 hg
        | some m =>
          rw [finalizeStep_fst_raise] at h
          simp [applyBoundary, handle_error] at h
      · rw [body_of_suspend st gen rb jl se r1 hv hg hmi] at h
        cases rb with
        | noResume =>
          rw [suspendPath_noResume] at h
          simp [applyBoundary] at h
        | resume v =>
          cases hex : extractPayload jl v with
          | none =>
            rw [suspendPath_no_payload st gen v jl se r1 hex] at h
            cases se with
            | none =>
              rw [finalizeStep_fst_ok] at h
              simp [applyBoundary] at h
              obtain ⟨h1, h2⟩ := h
              subst h1
              exact hgen 0 _ r1 hg
            | some m =>
              rw [finalizeStep_fst_raise] at h
              simp [applyBoundary, handle_error] at h
          | some ic =>
            cases h2 : gen 1 (restartPrompt st ic) with
            | error e =>
              rw [suspendPath_retry_err st gen v jl se r1 ic e hex h2] at h
              simp [applyBoundary] at h
            | ok r2 =>
              rw [suspendPath_retry_ok st gen v jl se r1 r2 ic hex h2] at h
              cases se with
              | none =>
                rw [finalizeStep_fst_ok] at h
                simp [applyBoundary] at h
                obtain ⟨h1, h3⟩ := h
                subst h1
                exact hgen 1 _ r2 h2
              | some m =>
                rw [finalizeStep_fst_raise] at h
                simp [applyBoundary, handle_error] at h

/-- C9 amended witness: with a generator always returning the non-empty
artifact, the concrete run returns a non-empty artifact. -/
theorem finalized_artifact_from_generator_w :
    (resume_tailorer
        ⟨("u").toList, ("j").toList, some (("o").toList), some (("r").toList),
          some (("d").toList), some (("c").toList), some (("f").toList)⟩
        (fun _ _ => Except.ok ⟨[], ("v1").toList⟩)
        ResumeBehavior.noResume (fun _ => Option.none) Option.none).1
      = StepOutcome.ret (StepReturn.ok (("v1").toList) [])
    ∧ ("v1").toList ≠ [] :=
  ⟨rfl,
   finalized_artifact_from_generator
     ⟨("u").toList, ("j").toList, some (("o").toList), some (("r").toList),
       some (("d").toList), some (("c").toList), some (("f").toList)⟩
     (fun _ _ => Except.ok ⟨[], ("v1").toList⟩)
     ResumeBehavior.noResume (fun _ => Option.none) Option.none
     (fun n p r hr => by
       have h : (⟨[], ("v1").toList⟩ : ResumeAnalysisAndGeneration) = r :=
         (Except.ok.injEq _ _).mp hr
       rw [← h]
       decide)
     (("v1").toList) [] rfl⟩

/-- C3 amended: a resumption with a valid payload
`{final_collected_info: X, updated_full_resume: Y}` makes exactly one
additional Generator call, and — provided the two textual replacement
patterns occur in the prompt only at their intended header positions —
that call prompt is the prompt rebuilt from the updated context
(`full_resume = Y`, accumulated info `X`, all other fields unchanged).
Without the non-interference proviso the plain textual replacement can
also rewrite other context fields (see the counterexample). -/
theorem resume_prompt_reflects_update (uid jid orig R jd cs rf X Y : Str)
    (gen) (v : PyValue) (jl) (se) (r1 : ResumeAnalysisAndGeneration)
    (h1 : gen 0 (initialPrompt ⟨uid, jid, some orig, some R, some jd, some cs, some rf⟩)
            = Except.ok r1)
    (hmi : r1.missing_info ≠ [])
    (hex : extractPayload jl v = some ⟨X, Y⟩)
    (hni : promptNoInterference rf orig R jd cs Y) :
    (resume_tailorer ⟨uid, jid, some orig, some R, some jd, some cs, some rf⟩ gen
        (ResumeBehavior.resume v) jl se).2.prompts
      = [mkPrompt rf orig R [] jd cs, mkPrompt rf orig Y X jd cs] := by
  have hrp : restartPrompt ⟨uid, jid, some orig, some R, some jd, some cs, some rf⟩ ⟨X, Y⟩
      = mkPrompt rf orig Y X jd cs := by
    show updatePrompt (mkPrompt rf orig R [] jd cs) R Y X = _
    exact updatePrompt_eq rf orig R jd cs Y X hni
  have h := retry_prompts ⟨uid, jid, some orig, some R, some jd, some cs, some rf⟩
    gen v jl se r1 ⟨X, Y⟩ (by rfl) h1 hmi hex
  rw [hrp] at h
  exact h

/-- C3 amended witness: on small interference-free inputs, the second
call prompt is exactly the rebuilt prompt with the payload resume
and collected info. -/
theorem resume_prompt_reflects_update_w :
    (resume_tailorer
        ⟨("u").toList, ("j").toList, some (("o").toList), some (("r").toList),
          some (("d").toList), some (("c").toList), some (("f").toList)⟩
        (fun n _ => if n == 0 then Except.ok ⟨[("g").toList], ("v1").toList⟩
                    else Except.ok ⟨[], ("v2").toList⟩)
        (ResumeBehavior.resume (PyValue.dict
          [(("updated_full_resume").toList, PyValue.str (("y").toList)),
           (("final_collected_info").toList, PyValue.str (("x").toList))]))
        (fun _ => Option.none) Option.none).2.prompts
      = [mkPrompt (("f").toList) (("o").toList) (("r").toList) [] (("d").toList) (("c").toList),
         mkPrompt (("f").toList) (("o").toList) (("y").toList) (("x").toList)
           (("d").toList) (("c").toList)] :=
  resume_prompt_reflects_update (("u").toList) (("j").toList) (("o").toList) (("r").toList)
    (("d").toList) (("c").toList) (("f").toList) (("x").toList) (("y").toList)
    _ _ _ _ ⟨[("g").toList], ("v1").toList⟩ (by rfl) (by simp) (by rfl) (by decide)

/-- C3 counterexample: with a job description that itself contains the
text `FULL_RESUME:\nr` of the full-resume section, the textual
replacement of source lines 220-226 also rewrites the job-description
section, so the retry call prompt is not the prompt rebuilt from the
updated context with the other fields unchanged. -/
theorem resume_prompt_reflects_update_cex :
    (resume_tailorer
        ⟨("u").toList, ("j").toList, some (("o").toList), some (("r").toList),
          some (("FULL_RESUME:\nr").toList), some (("c").toList), some (("f").toList)⟩
        (fun n _ => if n == 0 then Except.ok ⟨[("g").toList], ("v1").toList⟩
                    else Except.ok ⟨[], ("v2").toList⟩)
        (ResumeBehavior.resume (PyValue.dict
          [(("updated_full_resume").toList, PyValue.str (("y").toList)),
           (("final_collected_info").toList, PyValue.str (("x").toList))]))
        (fun _ => Option.none) Option.none).2.prompts
      ≠ [mkPrompt (("f").toList) (("o").toList) (("r").toList) []
            (("FULL_RESUME:\nr").toList) (("c").toList),
         mkPrompt (("f").toList) (("o").toList) (("y").toList) (("x").toList)
            (("FULL_RESUME:\nr").toList) (("c").toList)] := by
  intro hcontra
  have h := retry_prompts
    ⟨("u").toList, ("j").toList, some (("o").toList), some (("r").toList),
      some (("FULL_RESUME:\nr").toList), some (("c").toList), some (("f").toList)⟩
    (fun n _ => if n == 0 then Except.ok ⟨[("g").toList], ("v1").toList⟩
                else Except.ok ⟨[], ("v2").toList⟩)
    (PyValue.dict [(("updated_full_resume").toList, PyValue.str (("y").toList)),
                   (("final_collected_info").toList, PyValue.str (("x").toList))])
    (fun _ => Option.none) Option.none
    ⟨[("g").toList], ("v1").toList⟩ ⟨("x").toList, ("y").toList⟩
    (by rfl) (by rfl) (by simp) (by rfl)
  rw [h] at hcontra
  injection hcontra with hfst hrest
  injection hrest with h2 hnil
  have hjd : ("FULL_RESUME:\nr").toList = fullResumeHdr ++ ("r").toList := by decide
  have hp1 : fullResumeHdr ++ ("r").toList ≠ [] := by decide
  have hp2 : addInfoHdr ≠ [] := by decide
  have hc1 : cleanBefore (fullResumeHdr ++ ("r").toList)
      (promptIntro ++ ("f").toList ++ hdrOriginal ++ ("o").toList ++ blankSep)
      ((fullResumeHdr ++ ("r").toList)
        ++ ((blankSep ++ addInfoHdr ++ hdrJob)
          ++ ((fullResumeHdr ++ ("r").toList)
            ++ (hdrCompany ++ ("c").toList ++ promptOutro)))) = true := by decide
  have hc2 : cleanBefore (fullResumeHdr ++ ("r").toList)
      (blankSep ++ addInfoHdr ++ hdrJob)
      ((fullResumeHdr ++ ("r").toList)
        ++ (hdrCompany ++ ("c").toList ++ promptOutro)) = true := by decide
  have hc3 : cleanBefore (fullResumeHdr ++ ("r").toList)
      (hdrCompany ++ ("c").toList ++ promptOutro) [] = true := by decide
  have hP : mkPrompt (("f").toList) (("o").toList) (("r").toList) []
      (("FULL_RESUME:\nr").toList) (("c").toList)
      = (promptIntro ++ ("f").toList ++ hdrOriginal ++ ("o").toList ++ blankSep)
        ++ ((fullResumeHdr ++ ("r").toList)
          ++ ((blankSep ++ addInfoHdr ++ hdrJob)
            ++ ((fullResumeHdr ++ ("r").toList)
              ++ (hdrCompany ++ ("c").toList ++ promptOutro)))) := by
    rw [hjd]
    simp [mkPrompt, List.append_assoc]
  have hs1 : replaceAll
      (mkPrompt (("f").toList) (("o").toList) (("r").toList) []
        (("FULL_RESUME:\nr").toList) (("c").toList))
      (fullResumeHdr ++ ("r").toList) (fullResumeHdr ++ ("y").toList)
      = (promptIntro ++ ("f").toList ++ hdrOriginal ++ ("o").toList ++ blankSep)
        ++ ((fullResumeHdr ++ ("y").toList)
          ++ ((blankSep ++ addInfoHdr ++ hdrJob)
            ++ ((fullResumeHdr ++ ("y").toList)
              ++ (hdrCompany ++ ("c").toList ++ promptOutro)))) := by
    rw [hP]
    rw [replaceAll_skip (fullResumeHdr ++ ("r").toList) (fullResumeHdr ++ ("y").toList)
      (promptIntro ++ ("f").toList ++ hdrOriginal ++ ("o").toList ++ blankSep) _ hc1]
    rw [replaceAll_head (fullResumeHdr ++ ("r").toList) (fullResumeHdr ++ ("y").toList) _ hp1]
    rw [replaceAll_skip (fullResumeHdr ++ ("r").toList) (fullResumeHdr ++ ("y").toList)
      (blankSep ++ addInfoHdr ++ hdrJob) _ hc2]
    rw [replaceAll_head (fullResumeHdr ++ ("r").toList) (fullResumeHdr ++ ("y").toList) _ hp1]
    rw [replaceAll_of_clean (fullResumeHdr ++ ("r").toList) (fullResumeHdr ++ ("y").toList)
      (hdrCompany ++ ("c").toList ++ promptOutro) hc3]
  have hc4 : cleanBefore addInfoHdr
      (promptIntro ++ ("f").toList ++ hdrOriginal ++ ("o").toList ++ blankSep
        ++ (fullResumeHdr ++ ("y").toList) ++ blankSep)
      (addInfoHdr ++ (hdrJob ++ ((fullResumeHdr ++ ("y").toList)
        ++ (hdrCompany ++ ("c").toList ++ promptOutro)))) = true := by decide
  have hc5 : cleanBefore addInfoHdr
      (hdrJob ++ ((fullResumeHdr ++ ("y").toList)
        ++ (hdrCompany ++ ("c").toList ++ promptOutro))) [] = true := by decide
  have hre : (promptIntro ++ ("f").toList ++ hdrOriginal ++ ("o").toList ++ blankSep)
        ++ ((fullResumeHdr ++ ("y").toList)
          ++ ((blankSep ++ addInfoHdr ++ hdrJob)
            ++ ((fullResumeHdr ++ ("y").toList)
              ++ (hdrCompany ++ ("c").toList ++ promptOutro))))
      = (promptIntro ++ ("f").toList ++ hdrOriginal ++ ("o").toList ++ blankSep
          ++ (fullResumeHdr ++ ("y").toList) ++ blankSep)
        ++ (addInfoHdr ++ (hdrJob ++ ((fullResumeHdr ++ ("y").toList)
          ++ (hdrCompany ++ ("c").toList ++ promptOutro)))) := by
    simp [List.append_assoc]
  have hrp : restartPrompt
      ⟨("u").toList, ("j").toList, some (("o").toList), some (("r").toList),
        some (("FULL_RESUME:\nr").toList), some (("c").toList), some (("f").toList)⟩
      ⟨("x").toList, ("y").toList⟩
      = (promptIntro ++ ("f").toList ++ hdrOriginal ++ ("o").toList ++ blankSep
          ++ (fullResumeHdr ++ ("y").toList) ++ blankSep)
        ++ ((addInfoHdr ++ ("x").toList) ++ (hdrJob ++ ((fullResumeHdr ++ ("y").toList)
          ++ (hdrCompany ++ ("c").toList ++ promptOutro)))) := by
    show replaceAll
        (replaceAll
          (mkPrompt (("f").toList) (("o").toList) (("r").toList) []
            (("FULL_RESUME:\nr").toList) (("c").toList))
          (fullResumeHdr ++ ("r").toList) (fullResumeHdr ++ ("y").toList))
        addInfoHdr (addInfoHdr ++ ("x").toList) = _
    rw [hs1, hre]
    rw [replaceAll_skip addInfoHdr (addInfoHdr ++ ("x").toList)
      (promptIntro ++ ("f").toList ++ hdrOriginal ++ ("o").toList ++ blankSep
        ++ (fullResumeHdr ++ ("y").toList) ++ blankSep) _ hc4]
    rw [replaceAll_head addInfoHdr (addInfoHdr ++ ("x").toList) _ hp2]
    rw [replaceAll_of_clean addInfoHdr (addInfoHdr ++ ("x").toList)
      (hdrJob ++ ((fullResumeHdr ++ ("y").toList)
        ++ (hdrCompany ++ ("c").toList ++ promptOutro))) hc5]
  rw [hrp] at h2
  rw [hjd] at h2
  simp only [mkPrompt, List.append_assoc] at h2
  simp only [List.append_cancel_left_eq] at h2
  exact absurd h2 (by decide)
